import Mathlib

/-!
Shallow embedding of the Finergize recommendation service
(src/services/recommender_service.py, with the identical scoring algorithm
also present in src/update_model.py as FinergizeRecommenderAgent).

Python values that can appear in a survey-response mapping are modelled by
the inductive type `Value` (strings, numbers, lists).  Numbers are modelled
as rationals, which captures both Python ints and the finite floats the
code compares against the thresholds 3 and 4.  A missing key is modelled by
`Option.none`; `dict.get(key, default)` is `Option.getD`.
-/

namespace Finergize

/-- An atomic JSON-like value: a string, or a number (int or float,
modelled as a rational). -/
inductive Atom where
  | str : String → Atom
  | num : Rat → Atom
deriving DecidableEq

/-- A JSON-like value as the Python code receives it in a survey response:
a string, a number, or a list.  List elements are modelled as atoms: the
program only ever compares list elements against string constants (the
`in` membership tests) and Python equality between a string and a number
or a nested list is false, so a nested-list element is observationally
identical to any other non-matching element and nothing is lost by the
restriction. -/
inductive Value where
  | str : String → Value
  | num : Rat → Value
  | list : List Atom → Value
deriving DecidableEq

/-- The survey-response mapping, restricted to the eight keys that
recommender_service.py ever reads.  `none` models an absent key. -/
structure SurveyResponses where
  financial_goals : Option Value := none
  banking_habits : Option Value := none
  savings_method : Option Value := none
  loan_needs : Option Value := none
  digital_comfort : Option Value := none
  tracking_interest : Option Value := none
  financial_knowledge : Option Value := none
  income_range : Option Value := none
deriving DecidableEq

/-- Python `if not isinstance(x, list): x = [x]` (recommender_service.py
lines 643-644 and 648-649). -/
def pyWrapList : Value → List Atom
  | Value.list l => l
  | Value.str a => [Atom.str a]
  | Value.num q => [Atom.num q]

/-- The seven signals read from the responses in
generate_fallback_recommendations, lines 641-654, each with the default
used by the corresponding `responses.get` call. -/
structure Signals where
  goals : List Atom
  banking_habit : Value
  savings_methods : List Atom
  loan_need : Value
  digital_comfort : Value
  tracking_interest : Value
  knowledge_level : Value
deriving DecidableEq

/-- Lines 641-654 of recommender_service.py: extract and normalize the
signals from the response mapping. -/
def extractSignals (r : SurveyResponses) : Signals where
  goals := pyWrapList (r.financial_goals.getD (Value.list []))
  banking_habit := r.banking_habits.getD (Value.str "traditional")
  savings_methods := pyWrapList (r.savings_method.getD (Value.list []))
  loan_need := r.loan_needs.getD (Value.str "no")
  digital_comfort := r.digital_comfort.getD (Value.str "somewhat")
  tracking_interest := r.tracking_interest.getD (Value.num 3)
  knowledge_level := r.financial_knowledge.getD (Value.str "beginner")

/-- Lines 669-674: the Digital Banking adjustments (base score 5). -/
def digital_banking_score (s : Signals) : Int :=
  5 + (if s.digital_comfort ∈ [Value.str "very", Value.str "somewhat"] then 3 else 0)
    + (if s.banking_habit ∈ [Value.str "mobile", Value.str "upi", Value.str "net_banking"] then 2 else 0)
    + (if s.banking_habit ∈ [Value.str "traditional", Value.str "atm", Value.str "limited"] then 1 else 0)

/-- Lines 677-682: the Mutual Funds adjustments. -/
def mutual_funds_score (s : Signals) : Int :=
  5 + (if Atom.str "invest" ∈ s.goals then 3 else 0)
    + (if Atom.str "mutual_funds" ∈ s.savings_methods then 2 else 0)
    + (if s.knowledge_level ∈ [Value.str "intermediate", Value.str "advanced"] then 1 else 0)

/-- Lines 685-690: the Community Savings adjustments. -/
def community_savings_score (s : Signals) : Int :=
  5 + (if Atom.str "community" ∈ s.goals then 3 else 0)
    + (if Atom.str "chit" ∈ s.savings_methods then 3 else 0)
    + (if Atom.str "save" ∈ s.goals then 1 else 0)

/-- Lines 693-696: the Micro Loans adjustments. -/
def micro_loans_score (s : Signals) : Int :=
  5 + (if s.loan_need ∈ [Value.str "current", Value.str "future"] then 4 else 0)
    + (if Atom.str "loan" ∈ s.goals then 3 else 0)

/-- Lines 701-704 of recommender_service.py: the tracking-interest
adjustment for Analytics Profile.  The two threshold rules are written as
if/elif behind an isinstance number check, so a non-numeric value
contributes nothing and the tiers are mutually exclusive. -/
def trackingAdjustment : Value → Int
  | Value.num q => if 4 ≤ q then 3 else if 3 ≤ q then 1 else 0
  | _ => 0

/-- Lines 699-704: the Analytics Profile adjustments. -/
def analytics_profile_score (s : Signals) : Int :=
  5 + (if Atom.str "track" ∈ s.goals then 3 else 0) + trackingAdjustment s.tracking_interest

/-- Lines 707-710: the Financial Education adjustments. -/
def financial_education_score (s : Signals) : Int :=
  5 + (if Atom.str "education" ∈ s.goals then 4 else 0)
    + (if s.knowledge_level ∈ [Value.str "beginner", Value.str "basic"] then 2 else 0)

/-- The feature_scores dict of lines 657-710, listed in its insertion
order, which is the catalogue's canonical enumeration order. -/
def raw_feature_scores (s : Signals) : List (String × Int) :=
  [("digital_banking", digital_banking_score s),
   ("mutual_funds", mutual_funds_score s),
   ("community_savings", community_savings_score s),
   ("micro_loans", micro_loans_score s),
   ("analytics_profile", analytics_profile_score s),
   ("financial_education", financial_education_score s)]

/-- Line 714: `max(1, min(10, score))`. -/
def clamp (x : Int) : Int := max 1 (min 10 x)

/-- Lines 712-714: clamp every score into the range from 1 to 10. -/
def clamp_scores (l : List (String × Int)) : List (String × Int) :=
  l.map (fun p => (p.1, clamp p.2))

/-- The canonical catalogue enumeration order of the six feature ids. -/
def catalogueOrder : List String :=
  ["digital_banking", "mutual_funds", "community_savings", "micro_loans",
   "analytics_profile", "financial_education"]

/-- The comparator realising Python's
`sorted(items, key=lambda x: x[1], reverse=True)` of line 757: an element
may stay before another exactly when its score is at least the other's.
Python's sorted is a stable sort; a stable sort's output is uniquely
determined by the comparator and the input order, so the structurally
recursive `List.insertionSort` (which is stable) models it exactly. -/
def scoreGE (a b : String × Int) : Prop := b.2 ≤ a.2

instance : DecidableRel scoreGE := fun a b => inferInstanceAs (Decidable (b.2 ≤ a.2))

instance : IsTotal (String × Int) scoreGE := ⟨fun a b => le_total b.2 a.2⟩

instance : IsTrans (String × Int) scoreGE := ⟨fun _ _ _ h1 h2 => le_trans h2 h1⟩

/-- Lines 712-714 and 757: the clamped scores of a response, sorted
descending with the stable tie-break of Python's sorted. -/
def sorted_feature_scores (r : SurveyResponses) : List (String × Int) :=
  List.insertionSort scoreGE (clamp_scores (raw_feature_scores (extractSignals r)))

/-- Display name per feature id, as stored under the name key of the
finergize_features dict (identical in every copy of the catalogue in the
source: lines 122-153, lines 608-639, and update_model.py). -/
def feature_name (fid : String) : String :=
  if fid = "digital_banking" then "Digital Banking"
  else if fid = "mutual_funds" then "Mutual Funds"
  else if fid = "community_savings" then "Community Savings"
  else if fid = "micro_loans" then "Micro Loans"
  else if fid = "analytics_profile" then "Analytics Profile"
  else if fid = "financial_education" then "Financial Education"
  else ""

/-- The feature_details explanation texts of lines 717-753. -/
def feature_explanation (fid : String) : String :=
  if fid = "digital_banking" then "Modern banking services for easy money management via mobile."
  else if fid = "mutual_funds" then "Simple investment options to grow your wealth over time."
  else if fid = "community_savings" then "Save together with family or community members for shared goals."
  else if fid = "micro_loans" then "Small loans for personal or business needs with simple application."
  else if fid = "analytics_profile" then "Track your spending and get personalized insights to manage money better."
  else if fid = "financial_education" then "Learn essential financial skills through courses and articles."
  else ""

/-- The feature_details tip texts of lines 717-753. -/
def feature_tip (fid : String) : String :=
  if fid = "digital_banking" then "Start with basic UPI payments and bill payments to get comfortable."
  else if fid = "mutual_funds" then "Begin with a SIP (Systematic Investment Plan) with as little as ₹500 per month."
  else if fid = "community_savings" then "Create a savings group with 5-10 trusted people you know."
  else if fid = "micro_loans" then "Start with a small loan amount to build your credit profile."
  else if fid = "analytics_profile" then "Link your accounts to get a complete picture of your finances."
  else if fid = "financial_education" then "Start with the basic modules on budgeting and saving."
  else ""

/-- One entry of the prioritized_features list (lines 758-764). -/
structure FeatureScore where
  id : String
  name : String
  score : Rat
  explanation : String
  tip : String
deriving DecidableEq

/-- The user_profile summary of lines 769-772. -/
structure UserProfile where
  knowledge_level : Value
  income_level : String
deriving DecidableEq

/-- The value returned by the recommendation operations
(lines 767-773, and the analogous dicts at lines 324-330 and 524-544). -/
structure RecommendationResult where
  prioritized_features : List FeatureScore
  user_profile : UserProfile
deriving DecidableEq

/-- map_income_level, lines 775-784: `income_map.get(income_range, default)`
on the fixed five-entry dict; any non-string or unknown value falls to the
default display text of the middle band. -/
def map_income_level (v : Value) : String :=
  if v = Value.str "income_low" then "Below ₹15,000"
  else if v = Value.str "income_medium_low" then "₹15,000 - ₹30,000"
  else if v = Value.str "income_medium" then "₹30,000 - ₹60,000"
  else if v = Value.str "income_medium_high" then "₹60,000 - ₹1,20,000"
  else if v = Value.str "income_high" then "Above ₹1,20,000"
  else "₹30,000 - ₹60,000"

/-- generate_fallback_recommendations, lines 604-773 of
recommender_service.py (textually identical to
FinergizeRecommenderAgent.generate_fallback_recommendations in
update_model.py, lines 197-331): score the six features, clamp, sort
descending with stable ties, and attach the static texts and the profile.
The function reads only the name field of the finergize_features dict,
which is identical in every copy of the catalogue in the source. -/
def generate_fallback_recommendations (r : SurveyResponses) : RecommendationResult :=
  let s := extractSignals r
  { prioritized_features :=
      (sorted_feature_scores r).map (fun p =>
        { id := p.1, name := feature_name p.1, score := (p.2 : Rat),
          explanation := feature_explanation p.1, tip := feature_tip p.1 }),
    user_profile :=
      { knowledge_level := s.knowledge_level,
        income_level := map_income_level (r.income_range.getD (Value.str "income_medium")) } }

/-! Python string helpers, modelled character-by-character (ASCII case
mapping, which agrees with Python for every string appearing in the
source). -/

/-- Python `str.lower` for an ASCII character. -/
def asciiLower (c : Char) : Char :=
  if 'A' ≤ c && c ≤ 'Z' then Char.ofNat (c.toNat + 32) else c

/-- Python `str.lower` on a string. -/
def lowerStr (s : String) : String := ⟨s.data.map asciiLower⟩

/-- Substring test on character lists: true when the first list occurs
contiguously inside the second. -/
def strIn (needle : List Char) : List Char → Bool
  | [] => needle.isEmpty
  | c :: t => needle.isPrefixOf (c :: t) || strIn needle t

/-- Python `needle in hay` on strings. -/
def pyContains (hay needle : String) : Bool := strIn needle.data hay.data

/-- Python `str.strip`: drop whitespace from both ends. -/
def pyStrip (l : List Char) : List Char :=
  ((l.dropWhile Char.isWhitespace).reverse.dropWhile Char.isWhitespace).reverse

/-- Python single-character `str.replace`. -/
def replaceChar (a b : Char) (l : List Char) : List Char :=
  l.map (fun c => if c = a then b else c)

/-- Python `str.replace(old, new)` for a non-empty pattern, replacing
non-overlapping occurrences from the left. -/
def replaceSub (o : Char) (os : List Char) (new : List Char) : List Char → List Char
  | [] => []
  | c :: t =>
    if (o :: os).isPrefixOf (c :: t) then new ++ replaceSub o os new (t.drop os.length)
    else c :: replaceSub o os new t
termination_by l => l.length
decreasing_by
  · simp only [List.length_drop, List.length_cons]
    omega
  · simp only [List.length_cons]
    omega

/-- Python `str.title`: uppercase each character that follows a
non-alphabetic character, lowercase every other alphabetic character. -/
def pyTitleGo : Bool → List Char → List Char
  | _, [] => []
  | prevAlpha, c :: t =>
    if c.isAlpha then
      (if prevAlpha then c.toLower else c.toUpper) :: pyTitleGo true t
    else c :: pyTitleGo false t

/-- Python `str.title` on a character list. -/
def pyTitle (l : List Char) : List Char := pyTitleGo false l

/-- The catalogue id and display-name pairs, in insertion order (identical
in every copy of the finergize_features dict in the source). -/
def catalogue_names : List (String × String) :=
  [("digital_banking", "Digital Banking"),
   ("mutual_funds", "Mutual Funds"),
   ("community_savings", "Community Savings"),
   ("micro_loans", "Micro Loans"),
   ("analytics_profile", "Analytics Profile"),
   ("financial_education", "Financial Education")]

/-- The partial-match loop of get_feature_name, lines 594-599: for each
catalogue entry in order, first the key-containment tests, then the
lowercased-name-containment tests; the first hit wins. -/
def featureNameSearch (fid : String) : List (String × String) → Option String
  | [] => none
  | (key, name) :: rest =>
    if pyContains fid key || pyContains key fid then some name
    else if pyContains fid (lowerStr name) || pyContains (lowerStr name) fid then some name
    else featureNameSearch fid rest

/-- get_feature_name, lines 582-602 of recommender_service.py: normalize
the id, try an exact catalogue match, then partial matches, then fall back
to a title-cased version of the id. -/
def get_feature_name (fid0 : String) : String :=
  let fid : String := ⟨replaceChar ' ' '_' (pyStrip ((lowerStr fid0).data))⟩
  if (catalogue_names.map Prod.fst).contains fid then feature_name fid
  else
    match featureNameSearch fid catalogue_names with
    | some n => n
    | none => ⟨pyTitle (replaceChar '_' ' ' fid.data)⟩

/-- One value of the dict parsed from the Remote Scorer reply, holding the
fields the formatting code reads: `score`, `explanation`, `tip`, each
possibly absent.  Score values are modelled as numbers; a reply whose
score is a non-number would make Python's `sorted` raise and take the
outer exception path instead of this one. -/
structure RemoteDetails where
  score : Option Rat := none
  explanation : Option String := none
  tip : Option String := none
deriving DecidableEq

/-- The comparator of line 533,
`sorted(recommendations.items(), key=lambda x: x[1].get('score', 0), reverse=True)`:
a missing score sorts as 0. -/
def replyGE (a b : String × RemoteDetails) : Prop :=
  b.2.score.getD 0 ≤ a.2.score.getD 0

instance : DecidableRel replyGE :=
  fun a b => inferInstanceAs (Decidable (b.2.score.getD 0 ≤ a.2.score.getD 0))

instance : IsTotal (String × RemoteDetails) replyGE :=
  ⟨fun a b => le_total (b.2.score.getD 0) (a.2.score.getD 0)⟩

instance : IsTrans (String × RemoteDetails) replyGE :=
  ⟨fun _ _ _ h1 h2 => le_trans h2 h1⟩

/-- Lines 520-544 of recommender_service.py: format a successfully parsed
Remote Scorer reply.  Entries are sorted descending by the reply's score
value (missing scores sort as 0) with the stable tie-break of Python's
sorted, and each emitted score is `details.get('score', 5)` - taken
verbatim from the reply, with no clamping. -/
def format_remote_recommendations (r : SurveyResponses)
    (reply : List (String × RemoteDetails)) : RecommendationResult :=
  { prioritized_features :=
      (List.insertionSort replyGE reply).map (fun e =>
        { id := e.1, name := get_feature_name e.1, score := e.2.score.getD 5,
          explanation := e.2.explanation.getD "", tip := e.2.tip.getD "" }),
    user_profile :=
      { knowledge_level := r.financial_knowledge.getD (Value.str "beginner"),
        income_level := map_income_level (r.income_range.getD (Value.str "income_medium")) } }

/-- The per-feature score of BasicModel.recommend_features
(lines 300-311): baseline 5, with a single adjustment for
financial_education and one for digital_banking.  The membership tests use
`responses.get(key)` with no default, so an absent key behaves as a
non-matching value. -/
def basic_feature_score (r : SurveyResponses) (fid : String) : Int :=
  if fid = "financial_education" then
    5 + (if r.financial_knowledge ∈ [some (Value.str "beginner"), some (Value.str "basic")] then 3 else 0)
  else if fid = "digital_banking" then
    5 + (if r.digital_comfort ∈ [some (Value.str "very"), some (Value.str "somewhat")] then 2 else 0)
  else 5

/-- The descriptions of the catalogue loaded by initialize_default_model
(lines 122-153), used by BasicModel as explanation texts. -/
def basic_feature_description (fid : String) : String :=
  if fid = "digital_banking" then "Secure digital banking services with UPI payments, bill payments, and account management"
  else if fid = "mutual_funds" then "Simple investments in diversified mutual funds with low minimum entry"
  else if fid = "community_savings" then "Group savings programs where community members save together and support each other"
  else if fid = "micro_loans" then "Small, accessible loans with simple application process and fair interest rates"
  else if fid = "analytics_profile" then "Personalized financial insights and spending analysis to improve financial management"
  else if fid = "financial_education" then "Courses, articles and workshops on financial literacy and management"
  else ""

/-- The ideal_for texts of the catalogue (lines 122-153), used by
BasicModel as tip texts. -/
def basic_feature_ideal (fid : String) : String :=
  if fid = "digital_banking" then "Users looking for convenient, modern banking with minimal fees"
  else if fid = "mutual_funds" then "Users interested in growing their wealth through market-linked investments"
  else if fid = "community_savings" then "Users who want to save with friends, family or community members for shared goals"
  else if fid = "micro_loans" then "Users needing small amounts of credit for business or personal needs"
  else if fid = "analytics_profile" then "Users who want to understand their spending patterns and improve budgeting"
  else if fid = "financial_education" then "Users looking to improve their financial knowledge and decision-making"
  else ""

/-- The comparator of `features.sort(key=lambda x: x["score"], reverse=True)`
(line 322): stable descending sort of the feature records by score. -/
def fsGE (a b : FeatureScore) : Prop := b.score ≤ a.score

instance : DecidableRel fsGE := fun a b => inferInstanceAs (Decidable (b.score ≤ a.score))

instance : IsTotal FeatureScore fsGE := ⟨fun a b => le_total b.score a.score⟩

instance : IsTrans FeatureScore fsGE := ⟨fun _ _ _ h1 h2 => le_trans h2 h1⟩

/-- BasicModel.recommend_features, lines 297-330 of
recommender_service.py: the simplified two-rule scoring used by the
in-service default model that is installed when loading the persisted
model fails.  No clamping, income_level is a fixed placeholder string. -/
def basic_model_recommend (r : SurveyResponses) : RecommendationResult :=
  { prioritized_features :=
      List.insertionSort fsGE (catalogueOrder.map (fun fid =>
        { id := fid, name := feature_name fid, score := (basic_feature_score r fid : Rat),
          explanation := basic_feature_description fid, tip := basic_feature_ideal fid })),
    user_profile :=
      { knowledge_level := r.financial_knowledge.getD (Value.str "beginner"),
        income_level := "Estimated from responses" } }

/-- The state of `self.model` in the service: `noModel` models
`self.model is None`; `basic` models the in-service BasicModel installed
by initialize_default_model when loading the persisted model fails;
`agent` models the shipped FinergizeRecommenderAgent of update_model.py,
whose recommend_features delegates to the same
generate_fallback_recommendations algorithm embedded above. -/
inductive ModelState where
  | noModel
  | basic
  | agent
deriving DecidableEq

/-- The outcome of the optional Remote Scorer attempt in
recommend_features (lines 465-553): not attempted (no API configured),
an exception raised by the external call, a reply that fails JSON
parsing, or a successfully parsed reply. -/
inductive RemoteOutcome where
  | noApi
  | error
  | badJson
  | parsed : List (String × RemoteDetails) → RemoteOutcome
deriving DecidableEq

/-- RecommenderService.recommend_features, lines 454-563: with no model,
fall back to generate_fallback_recommendations (line 560); with a model,
a successfully parsed remote reply is formatted and returned (lines
520-544), and every other remote outcome - not attempted, exception, or
unparseable reply - falls through to `self.model.recommend_features`
(line 557), which is BasicModel.recommend_features for the in-service
model and generate_fallback_recommendations for the shipped agent. -/
def recommend_features (m : ModelState) (o : RemoteOutcome) (r : SurveyResponses) :
    RecommendationResult :=
  match m with
  | ModelState.noModel => generate_fallback_recommendations r
  | ModelState.basic =>
    match o with
    | RemoteOutcome.parsed reply => format_remote_recommendations r reply
    | _ => basic_model_recommend r
  | ModelState.agent =>
    match o with
    | RemoteOutcome.parsed reply => format_remote_recommendations r reply
    | _ => generate_fallback_recommendations r

/-- One option of a choice question, as a dict with id and text, plus the
icon key that the accessibility transform may add. -/
structure QOption where
  id : String
  text : String
  icon : Option String := none
deriving DecidableEq

/-- A question template dict (lines 156-257): id, question text, type,
and the type-specific keys, plus the keys the accessibility transform may
add. -/
structure Question where
  id : String
  question : String
  qtype : String
  options : Option (List QOption) := none
  allowMultiple : Option Bool := none
  min : Option Int := none
  max : Option Int := none
  labels : List (String × String) := []
  simplified_question : Option String := none
  help_text : Option String := none
deriving DecidableEq

/-- The eight question templates of lines 156-257, in the insertion order
of the question_templates dict, which is also the order in which
generate_survey appends them (lines 286-293 and update_model.py lines
180-187). -/
def question_templates : List Question :=
  [{ id := "financial_goals",
     question := "What are your primary financial goals?",
     qtype := "multiple-choice",
     options := some
       [{ id := "save", text := "Save for emergencies" },
        { id := "invest", text := "Invest for long-term growth" },
        { id := "loan", text := "Get a small loan for specific needs" },
        { id := "education", text := "Learn more about financial management" },
        { id := "community", text := "Save with family or community members" },
        { id := "track", text := "Track and manage my spending better" }],
     allowMultiple := some true },
   { id := "income_range",
     question := "What is your monthly income range?",
     qtype := "single-choice",
     options := some
       [{ id := "income_low", text := "Below ₹15,000" },
        { id := "income_medium_low", text := "₹15,000 - ₹30,000" },
        { id := "income_medium", text := "₹30,000 - ₹60,000" },
        { id := "income_medium_high", text := "₹60,000 - ₹1,20,000" },
        { id := "income_high", text := "Above ₹1,20,000" }] },
   { id := "financial_knowledge",
     question := "How would you rate your financial knowledge?",
     qtype := "single-choice",
     options := some
       [{ id := "beginner", text := "Beginner - I know very little" },
        { id := "basic", text := "Basic - I understand fundamental concepts" },
        { id := "intermediate", text := "Intermediate - I can make informed decisions" },
        { id := "advanced", text := "Advanced - I understand complex financial products" }] },
   { id := "banking_habits",
     question := "How do you currently do most of your banking?",
     qtype := "single-choice",
     options := some
       [{ id := "traditional", text := "Traditional bank branches" },
        { id := "atm", text := "ATMs" },
        { id := "net_banking", text := "Net banking on computer" },
        { id := "mobile", text := "Mobile banking apps" },
        { id := "upi", text := "UPI apps (Google Pay, PhonePe, etc.)" },
        { id := "limited", text := "I have limited banking access" }] },
   { id := "savings_method",
     question := "How do you currently save money?",
     qtype := "multiple-choice",
     options := some
       [{ id := "bank", text := "Bank savings account" },
        { id := "cash", text := "Cash at home" },
        { id := "fd", text := "Fixed deposits" },
        { id := "post", text := "Post office schemes" },
        { id := "chit", text := "Chit funds/community savings" },
        { id := "gold", text := "Gold/jewelry" },
        { id := "mutual_funds", text := "Mutual funds" },
        { id := "stocks", text := "Direct stocks" },
        { id := "no_savings", text := "I don\x27t save regularly" }],
     allowMultiple := some true },
   { id := "loan_needs",
     question := "Do you currently need or expect to need a small loan?",
     qtype := "single-choice",
     options := some
       [{ id := "current", text := "Yes, I currently need a small loan" },
        { id := "future", text := "Not now, but might in the near future" },
        { id := "no", text := "No, I don\x27t expect to need a loan" }] },
   { id := "digital_comfort",
     question := "How comfortable are you using digital/mobile financial apps?",
     qtype := "single-choice",
     options := some
       [{ id := "very", text := "Very comfortable - I use multiple apps regularly" },
        { id := "somewhat", text := "Somewhat comfortable - I use basic features" },
        { id := "limited", text := "Limited comfort - I use them with help" },
        { id := "uncomfortable", text := "Uncomfortable - I prefer not to use them" }] },
   { id := "tracking_interest",
     question := "How interested are you in tracking and analyzing your spending habits?",
     qtype := "slider",
     min := some 1,
     max := some 5,
     labels := [("1", "Not Interested"), ("3", "Somewhat Interested"), ("5", "Very Interested")] }]

/-- The simplified_question keyword chain of enhance_for_accessibility,
lines 367-388: match substrings of the lowercased question text in order,
first hit wins; with no hit, rewrite the original text by replacing the
word financial with money and investment with saving money. -/
def simplified_for (q : Question) : String :=
  let t := lowerStr q.question
  if pyContains t "financial goals" then "What do you want to do with your money?"
  else if pyContains t "income" then "How much money do you get each month?"
  else if pyContains t "risk" then "How okay are you if your money goes up and down?"
  else if pyContains t "knowledge" then "How much do you know about money?"
  else if pyContains t "banking" then "How do you use banks now?"
  else if pyContains t "save" then "How do you keep your savings?"
  else if pyContains t "loan" then "Do you need to borrow money?"
  else if pyContains t "digital" then "Do you use money apps on your phone?"
  else if pyContains t "tracking" then "Do you want to see where your money goes?"
  else
    ⟨replaceSub 'i' "nvestment".data "saving money".data
      (replaceSub 'f' "inancial".data "money".data q.question.data)⟩

/-- generate_help_text, lines 402-425: an independent keyword chain over
the lowercased question text with its own fallback text. -/
def generate_help_text (q : Question) : String :=
  let t := lowerStr q.question
  if pyContains t "financial goals" then "These are things you want to do with your money in the future."
  else if pyContains t "income" then "This is how much money you get each month from your job or business."
  else if pyContains t "risk" then "Lower risk means your money is safer but grows slower. Higher risk means it might grow faster but could also lose value."
  else if pyContains t "knowledge" then "How much you know about money and financial matters."
  else if pyContains t "banking habits" then "How you currently use banking services for your money needs."
  else if pyContains t "save money" then "Different ways to keep your savings safe and growing."
  else if pyContains t "loan" then "Whether you need to borrow money for personal or business needs."
  else if pyContains t "digital" then "How comfortable you are using apps on your phone for money management."
  else if pyContains t "tracking" then "Understanding where your money goes each month."
  else "Please select the option that best describes your situation."

/-- assign_option_icon, lines 427-452: a keyword chain over the lowercased
option text, defaulting to a checkmark. -/
def assign_option_icon (t0 : String) : String :=
  let t := lowerStr t0
  if pyContains t "save" || pyContains t "emergency" || pyContains t "bank" then "💰"
  else if pyContains t "invest" || pyContains t "growth" || pyContains t "mutual" then "📈"
  else if pyContains t "loan" || pyContains t "borrow" then "🏦"
  else if pyContains t "education" || pyContains t "learn" then "📚"
  else if pyContains t "retirement" then "🌴"
  else if pyContains t "community" || pyContains t "chit" || pyContains t "group" then "👨‍👩‍👧‍👦"
  else if pyContains t "track" || pyContains t "analytics" || pyContains t "spending" then "📊"
  else if pyContains t "digital" || pyContains t "mobile" || pyContains t "app" then "📱"
  else if pyContains t "conservative" || pyContains t "low" then "🛡️"
  else if pyContains t "aggressive" || pyContains t "high" then "🚀"
  else "✅"

/-- The per-question body of enhance_for_accessibility, lines 364-398:
set the simplified question and help text, and give every option an icon.
Python skips the icon loop when the options list is absent or empty;
mapping over an empty or absent list is the same. -/
def enhance_question (q : Question) : Question :=
  { q with
    simplified_question := some (simplified_for q),
    help_text := some (generate_help_text q),
    options := q.options.map (fun l =>
      l.map (fun o => { o with icon := some (assign_option_icon o.text) })) }

/-- enhance_for_accessibility, lines 360-400: enhance every question. -/
def enhance_for_accessibility (qs : List Question) : List Question :=
  qs.map enhance_question

/-- The user context read by generate_survey; only literacy_level is ever
consulted (line 348). -/
structure UserContext where
  location : Option Value := none
  age_group : Option Value := none
  interest : Option Value := none
  literacy_level : Option Value := none
deriving DecidableEq

/-- RecommenderService.generate_survey, lines 341-358: with no model the
guard at line 344 fails and an empty list is returned; otherwise the
model returns the eight fixed templates (identically for BasicModel and
the shipped agent), and they are passed through the accessibility
transform exactly when the literacy_level of the user context equals
low. -/
def generate_survey (m : ModelState) (uc : UserContext) : List Question :=
  match m with
  | ModelState.noModel => []
  | _ =>
    if uc.literacy_level = some (Value.str "low") then
      enhance_for_accessibility question_templates
    else question_templates


/-! Shared concrete inputs and helper lemmas for the verification
theorems. -/

/-- The empty survey response: every key absent. -/
def emptyResponses : SurveyResponses := {}

/-- A stable sort does not move elements that the comparator cannot tell
apart: filtering by any predicate whose holders are pairwise related
yields the same list before and after sorting. -/
theorem filter_insertionSort_eq {α : Type} (r : α → α → Prop) [DecidableRel r]
    (p : α → Bool) (l : List α) (hp : (l.filter p).Pairwise r) :
    (List.insertionSort r l).filter p = l.filter p := by
  have hsub : List.Sublist (l.filter p) (List.insertionSort r l) :=
    List.sublist_insertionSort hp (List.filter_sublist l)
  have hsub2 : List.Sublist ((l.filter p).filter p) ((List.insertionSort r l).filter p) :=
    hsub.filter p
  rw [List.filter_filter] at hsub2
  simp only [Bool.and_self] at hsub2
  have hperm : List.Perm ((List.insertionSort r l).filter p) (l.filter p) :=
    (List.perm_insertionSort r l).filter p
  exact (hsub2.eq_of_length hperm.length_eq.symm).symm

/-- Every clamped score lies between 1 and 10. -/
theorem clamp_mem_range (x : Int) : 1 ≤ clamp x ∧ clamp x ≤ 10 :=
  ⟨le_max_left 1 (min 10 x), max_le (by norm_num) (min_le_left 10 x)⟩

/-- C1: for every survey response, every score in the prioritized_features
list returned by generate_fallback_recommendations lies in the closed
interval from 1 to 10 after the clamping step. -/
theorem C1_scores_in_range (r : SurveyResponses) (f : FeatureScore)
    (hf : f ∈ (generate_fallback_recommendations r).prioritized_features) :
    1 ≤ f.score ∧ f.score ≤ 10 := by
  simp only [generate_fallback_recommendations, List.mem_map] at hf
  obtain ⟨p, hp, rfl⟩ := hf
  rw [sorted_feature_scores, List.mem_insertionSort] at hp
  simp only [clamp_scores, List.mem_map] at hp
  obtain ⟨q, _, rfl⟩ := hp
  have h := clamp_mem_range q.2
  constructor
  · show (1 : Rat) ≤ ((clamp q.2 : Int) : Rat)
    exact_mod_cast h.1
  · show ((clamp q.2 : Int) : Rat) ≤ 10
    exact_mod_cast h.2

/-- The top entry produced for the empty response, used to witness C1. -/
def c1_entry : FeatureScore :=
  { id := "digital_banking", name := "Digital Banking", score := 9,
    explanation := "Modern banking services for easy money management via mobile.",
    tip := "Start with basic UPI payments and bill payments to get comfortable." }

/-- Concrete member used to witness C1. -/
theorem C1_scores_in_range_witness :
    c1_entry ∈ (generate_fallback_recommendations emptyResponses).prioritized_features ∧
    1 ≤ c1_entry.score ∧ c1_entry.score ≤ 10 :=
  ⟨by decide, C1_scores_in_range emptyResponses c1_entry (by decide)⟩

/-- The end-to-end example input of C2. -/
def c2_responses : SurveyResponses :=
  { financial_goals := some (Value.list [Atom.str "invest"]),
    banking_habits := some (Value.str "upi"),
    savings_method := some (Value.list [Atom.str "mutual_funds"]),
    loan_needs := some (Value.str "no"),
    digital_comfort := some (Value.str "very"),
    tracking_interest := some (Value.num 5),
    financial_knowledge := some (Value.str "advanced") }

/-- C2: on the concrete end-to-end input, mutual_funds scores 11 before
clamping, and the returned ranking is digital_banking 10, mutual_funds 10,
analytics_profile 8, then community_savings, micro_loans,
financial_education at 5, with the equal-score groups in catalogue
insertion order. -/
theorem C2_end_to_end_example :
    mutual_funds_score (extractSignals c2_responses) = 11 ∧
    (generate_fallback_recommendations c2_responses).prioritized_features.map
        (fun f => (f.id, f.score)) =
      [("digital_banking", 10), ("mutual_funds", 10), ("analytics_profile", 8),
       ("community_savings", 5), ("micro_loans", 5), ("financial_education", 5)] := by
  constructor
  · decide
  · decide

/-- C3: for every survey response the output list of the local scoring
engine is sorted in descending score order, and the ids of every
equal-score group appear in the catalogue's canonical enumeration order
(the stable, deterministic tie-break). -/
theorem C3_sorted_and_stable (r : SurveyResponses) :
    ((generate_fallback_recommendations r).prioritized_features).Pairwise
      (fun a b => b.score ≤ a.score) ∧
    ∀ q : Rat,
      List.Sublist
        (((generate_fallback_recommendations r).prioritized_features.filter
            (fun f => decide (f.score = q))).map (fun f => f.id))
        catalogueOrder := by
  have hpair := List.sorted_insertionSort scoreGE
    (clamp_scores (raw_feature_scores (extractSignals r)))
  constructor
  · simp only [generate_fallback_recommendations, sorted_feature_scores]
    rw [List.pairwise_map]
    refine hpair.imp (fun {a b} hab => ?_)
    show ((b.2 : Int) : Rat) ≤ ((a.2 : Int) : Rat)
    exact_mod_cast hab
  · intro q
    simp only [generate_fallback_recommendations, sorted_feature_scores]
    rw [List.filter_map, List.map_map]
    rw [filter_insertionSort_eq scoreGE _ _ ?hp]
    case hp =>
      apply List.pairwise_of_forall_mem_list
      intro a ha b hb
      rw [List.mem_filter] at ha hb
      have ha2 : ((a.2 : Int) : Rat) = q := by
        have := ha.2
        simpa using this
      have hb2 : ((b.2 : Int) : Rat) = q := by
        have := hb.2
        simpa using this
      have : (a.2 : Int) = b.2 := by exact_mod_cast ha2.trans hb2.symm
      exact le_of_eq this.symm
    have hfst : (clamp_scores (raw_feature_scores (extractSignals r))).map
        (fun p => p.1) = catalogueOrder := rfl
    have hsub := (@List.filter_sublist (String × Int)
      ((fun f : FeatureScore => decide (f.score = q)) ∘ (fun p : String × Int =>
        ({ id := p.1, name := feature_name p.1, score := (p.2 : Rat),
           explanation := feature_explanation p.1, tip := feature_tip p.1 } : FeatureScore)))
      (clamp_scores (raw_feature_scores (extractSignals r)))).map
      (fun p : String × Int => p.1)
    rw [hfst] at hsub
    exact hsub

/-- C4: for a numeric tracking_interest value the two threshold rules are
mutually exclusive: at least 4 adds exactly 3, at least 3 but below 4 adds
exactly 1, below 3 adds nothing; the tiers are never additive. -/
theorem C4_tracking_tiers_exclusive (q : Rat) :
    (4 ≤ q → trackingAdjustment (Value.num q) = 3) ∧
    (3 ≤ q → q < 4 → trackingAdjustment (Value.num q) = 1) ∧
    (q < 3 → trackingAdjustment (Value.num q) = 0) := by
  refine ⟨fun h4 => ?_, fun h3 h4 => ?_, fun h3 => ?_⟩
  · simp [trackingAdjustment, h4]
  · simp [trackingAdjustment, not_le.mpr h4, h3]
  · simp [trackingAdjustment, not_le.mpr (h3.trans_le (by norm_num : (3:Rat) ≤ 4)),
      not_le.mpr h3]

/-- Concrete instances of the three tracking tiers, witnessing C4. -/
theorem C4_tracking_tiers_exclusive_witness :
    ((4 : Rat) ≤ 9 ∧ trackingAdjustment (Value.num 9) = 3) ∧
    ((3 : Rat) ≤ 7 / 2 ∧ (7 / 2 : Rat) < 4 ∧ trackingAdjustment (Value.num (7 / 2)) = 1) ∧
    ((2 : Rat) < 3 ∧ trackingAdjustment (Value.num 2) = 0) :=
  ⟨⟨by norm_num, (C4_tracking_tiers_exclusive 9).1 (by norm_num)⟩,
   ⟨by norm_num, by norm_num,
    (C4_tracking_tiers_exclusive (7 / 2)).2.1 (by norm_num) (by norm_num)⟩,
   ⟨by norm_num, (C4_tracking_tiers_exclusive 2).2.2 (by norm_num)⟩⟩

/-- C5: replacing a single-string financial_goals or savings_method value
by the one-element list holding that string leaves the output of the local
scoring engine unchanged. -/
theorem C5_string_normalization (r : SurveyResponses) (s : String) :
    generate_fallback_recommendations { r with financial_goals := some (Value.str s) } =
      generate_fallback_recommendations { r with financial_goals := some (Value.list [Atom.str s]) } ∧
    generate_fallback_recommendations { r with savings_method := some (Value.str s) } =
      generate_fallback_recommendations { r with savings_method := some (Value.list [Atom.str s]) } :=
  ⟨rfl, rfl⟩

/-- C6: every absent signal behaves exactly like its documented default,
and an absent or unrecognized income_range yields the middle income
band. -/
theorem C6_field_defaults (r : SurveyResponses) (s : String)
    (hs : s ∉ ["income_low", "income_medium_low", "income_medium",
               "income_medium_high", "income_high"]) :
    generate_fallback_recommendations { r with financial_goals := none } =
      generate_fallback_recommendations { r with financial_goals := some (Value.list []) } ∧
    generate_fallback_recommendations { r with banking_habits := none } =
      generate_fallback_recommendations { r with banking_habits := some (Value.str "traditional") } ∧
    generate_fallback_recommendations { r with savings_method := none } =
      generate_fallback_recommendations { r with savings_method := some (Value.list []) } ∧
    generate_fallback_recommendations { r with loan_needs := none } =
      generate_fallback_recommendations { r with loan_needs := some (Value.str "no") } ∧
    generate_fallback_recommendations { r with digital_comfort := none } =
      generate_fallback_recommendations { r with digital_comfort := some (Value.str "somewhat") } ∧
    generate_fallback_recommendations { r with tracking_interest := none } =
      generate_fallback_recommendations { r with tracking_interest := some (Value.num 3) } ∧
    generate_fallback_recommendations { r with financial_knowledge := none } =
      generate_fallback_recommendations { r with financial_knowledge := some (Value.str "beginner") } ∧
    generate_fallback_recommendations { r with income_range := none } =
      generate_fallback_recommendations { r with income_range := some (Value.str "income_medium") } ∧
    (generate_fallback_recommendations { r with income_range := none }).user_profile.income_level =
      "₹30,000 - ₹60,000" ∧
    (generate_fallback_recommendations { r with income_range := some (Value.str s) }).user_profile.income_level =
      "₹30,000 - ₹60,000" := by
  simp only [List.mem_cons, List.not_mem_nil, or_false, not_or] at hs
  obtain ⟨h1, h2, h3, h4, h5⟩ := hs
  refine ⟨rfl, rfl, rfl, rfl, rfl, rfl, rfl, rfl, rfl, ?_⟩
  show map_income_level (Value.str s) = "₹30,000 - ₹60,000"
  simp [map_income_level, Value.str.injEq, h1, h2, h3, h4, h5]

/-- Concrete instance of C6 at the empty response and an unrecognized
income tag. -/
theorem C6_field_defaults_witness :
    ("unknown" ∉ ["income_low", "income_medium_low", "income_medium",
                  "income_medium_high", "income_high"]) ∧
    (generate_fallback_recommendations
        { emptyResponses with income_range := some (Value.str "unknown") }).user_profile.income_level =
      "₹30,000 - ₹60,000" :=
  ⟨by decide, (C6_field_defaults emptyResponses "unknown" (by decide)).2.2.2.2.2.2.2.2.2⟩

/-- Counterexample to C7 as stated: with the in-service BasicModel
installed, a Remote Scorer failure falls back to
BasicModel.recommend_features, whose result on the empty response differs
from the rule-based engine of generate_fallback_recommendations. -/
theorem C7_remote_failure_counterexample :
    recommend_features ModelState.basic RemoteOutcome.error emptyResponses ≠
      generate_fallback_recommendations emptyResponses := by
  decide

/-- C7 as amended: on a Remote Scorer failure (exception or unparseable
reply) recommend_features returns the installed model's own
recommend_features result and never surfaces the failure; with the
shipped agent model this equals the rule-based engine, while the
in-service BasicModel yields its simpler scoring instead. -/
theorem C7_remote_failure_fallback (r : SurveyResponses) (o : RemoteOutcome)
    (ho : o = RemoteOutcome.error ∨ o = RemoteOutcome.badJson) :
    recommend_features ModelState.agent o r = generate_fallback_recommendations r ∧
    recommend_features ModelState.basic o r = basic_model_recommend r := by
  rcases ho with rfl | rfl <;> exact ⟨rfl, rfl⟩

/-- Concrete instance of the amended C7. -/
theorem C7_remote_failure_fallback_witness :
    (RemoteOutcome.error = RemoteOutcome.error ∨
      RemoteOutcome.error = RemoteOutcome.badJson) ∧
    recommend_features ModelState.agent RemoteOutcome.error emptyResponses =
      generate_fallback_recommendations emptyResponses :=
  ⟨Or.inl rfl,
   (C7_remote_failure_fallback emptyResponses RemoteOutcome.error (Or.inl rfl)).1⟩

/-- A parsed Remote Scorer reply whose score exceeds 10. -/
def c8_overflow_reply : List (String × RemoteDetails) :=
  [("digital_banking", { score := some 15 })]

/-- Counterexample to C8 as stated: a successfully parsed reply with score
15 is returned with score 15 - the formatting path applies no clamping
into the range from 1 to 10. -/
theorem C8_no_clamping_counterexample :
    ¬ ∀ f ∈ (recommend_features ModelState.basic
        (RemoteOutcome.parsed c8_overflow_reply) emptyResponses).prioritized_features,
      1 ≤ f.score ∧ f.score ≤ 10 := by
  decide

/-- C8 as amended: scores of a parsed reply are passed through verbatim
(5 when the field is absent) with no clamping, and when every entry
carries a score the output is sorted descending by that score with ties
kept in the order of the reply itself - not in catalogue order. -/
theorem C8_reply_pass_through (r : SurveyResponses)
    (reply : List (String × RemoteDetails))
    (h : ∀ e ∈ reply, e.2.score.isSome = true) :
    ((recommend_features ModelState.basic (RemoteOutcome.parsed reply) r).prioritized_features.map
        (fun f => f.score)).Pairwise (fun a b => b ≤ a) ∧
    List.Perm
      ((recommend_features ModelState.basic (RemoteOutcome.parsed reply) r).prioritized_features.map
        (fun f => f.score))
      (reply.map (fun e => e.2.score.getD 5)) ∧
    ∀ q : Rat,
      ((recommend_features ModelState.basic (RemoteOutcome.parsed reply) r).prioritized_features.filter
          (fun f => decide (f.score = q))).map (fun f => f.id) =
        (reply.filter (fun e => decide (e.2.score.getD 5 = q))).map (fun e => e.1) := by
  have hgd : ∀ e ∈ reply, e.2.score.getD 0 = e.2.score.getD 5 := by
    intro e he
    obtain ⟨v, hv⟩ := Option.isSome_iff_exists.mp (h e he)
    rw [hv]
    rfl
  refine ⟨?_, ?_, ?_⟩
  · show (((List.insertionSort replyGE reply).map (fun e =>
      ({ id := e.1, name := get_feature_name e.1, score := e.2.score.getD 5,
         explanation := e.2.explanation.getD "", tip := e.2.tip.getD "" } : FeatureScore))).map
        (fun f => f.score)).Pairwise (fun a b => b ≤ a)
    rw [List.map_map, List.pairwise_map]
    refine (List.sorted_insertionSort replyGE reply).imp_of_mem (fun {a b} ha hb hab => ?_)
    rw [List.mem_insertionSort] at ha hb
    show b.2.score.getD 5 ≤ a.2.score.getD 5
    rw [← hgd a ha, ← hgd b hb]
    exact hab
  · show List.Perm (((List.insertionSort replyGE reply).map (fun e =>
      ({ id := e.1, name := get_feature_name e.1, score := e.2.score.getD 5,
         explanation := e.2.explanation.getD "", tip := e.2.tip.getD "" } : FeatureScore))).map
        (fun f => f.score))
      (reply.map (fun e => e.2.score.getD 5))
    rw [List.map_map]
    exact (List.perm_insertionSort replyGE reply).map (fun e => e.2.score.getD 5)
  · intro q
    show ((((List.insertionSort replyGE reply).map (fun e =>
      ({ id := e.1, name := get_feature_name e.1, score := e.2.score.getD 5,
         explanation := e.2.explanation.getD "", tip := e.2.tip.getD "" } : FeatureScore))).filter
        (fun f => decide (f.score = q))).map (fun f => f.id)) =
      (reply.filter (fun e => decide (e.2.score.getD 5 = q))).map (fun e => e.1)
    rw [List.filter_map, List.map_map]
    rw [filter_insertionSort_eq replyGE _ _ ?hp]
    case hp =>
      apply List.pairwise_of_forall_mem_list
      intro a ha b hb
      rw [List.mem_filter] at ha hb
      have ha2 : a.2.score.getD 5 = q := by simpa using ha.2
      have hb2 : b.2.score.getD 5 = q := by simpa using hb.2
      show b.2.score.getD 0 ≤ a.2.score.getD 0
      rw [hgd a ha.1, hgd b hb.1, ha2, hb2]
    rfl

/-- A parsed reply holding a tie written against catalogue order, used to
witness the amended C8. -/
def c8_tied_reply : List (String × RemoteDetails) :=
  [("financial_education", { score := some 7 }),
   ("digital_banking", { score := some 7 })]

/-- Concrete instance of the amended C8. -/
theorem C8_reply_pass_through_witness :
    (∀ e ∈ c8_tied_reply, e.2.score.isSome = true) ∧
    ((recommend_features ModelState.basic (RemoteOutcome.parsed c8_tied_reply)
        emptyResponses).prioritized_features.map
      (fun f => f.score)).Pairwise (fun a b => b ≤ a) :=
  ⟨by decide, (C8_reply_pass_through emptyResponses c8_tied_reply (by decide)).1⟩

/-- The user context with every key absent. -/
def defaultContext : UserContext := {}

/-- C9: with a model installed, generate_survey passes the eight fixed
templates through the accessibility transform exactly when the literacy
level is the string low, and otherwise returns the untransformed templates
in their fixed order; the transform is not the identity on the
templates. -/
theorem C9_accessibility_iff (m : ModelState) (uc : UserContext)
    (hm : m ≠ ModelState.noModel) :
    (uc.literacy_level = some (Value.str "low") →
      generate_survey m uc = enhance_for_accessibility question_templates) ∧
    (uc.literacy_level ≠ some (Value.str "low") →
      generate_survey m uc = question_templates) ∧
    enhance_for_accessibility question_templates ≠ question_templates := by
  refine ⟨fun h => ?_, fun h => ?_, by decide⟩ <;> cases m with
  | noModel => exact absurd rfl hm
  | basic => simp [generate_survey, h]
  | agent => simp [generate_survey, h]

/-- Concrete instance of C9 at an absent literacy level. -/
theorem C9_accessibility_iff_witness :
    (ModelState.basic ≠ ModelState.noModel) ∧
    (defaultContext.literacy_level ≠ some (Value.str "low")) ∧
    generate_survey ModelState.basic defaultContext = question_templates :=
  ⟨by decide, by decide,
   (C9_accessibility_iff ModelState.basic defaultContext (by decide)).2.1 (by decide)⟩

/-- Clamping is the identity inside the range from 1 to 10. -/
theorem clamp_of_mem_range (x : Int) (h1 : 1 ≤ x) (h2 : x ≤ 10) : clamp x = x := by
  rw [clamp, min_eq_right h2, max_eq_right h1]

/-- C10: a present but non-numeric tracking_interest contributes no
analytics adjustment (it is neither coerced nor replaced by the default),
so the analytics score sits exactly one point below the absent-field case,
where the default 3 adds one point. -/
theorem C10_non_numeric_tracking (r : SurveyResponses) (s : String) :
    trackingAdjustment (Value.str s) = 0 ∧
    analytics_profile_score (extractSignals { r with tracking_interest := some (Value.str s) }) + 1 =
      analytics_profile_score (extractSignals { r with tracking_interest := none }) ∧
    clamp (analytics_profile_score (extractSignals { r with tracking_interest := some (Value.str s) })) ≠
      clamp (analytics_profile_score (extractSignals { r with tracking_interest := none })) := by
  have h1 : trackingAdjustment (Value.num 3) = (1 : Int) := by decide
  refine ⟨rfl, ?_, ?_⟩
  · show 5 + (if Atom.str "track" ∈ pyWrapList (r.financial_goals.getD (Value.list [])) then 3 else 0)
        + trackingAdjustment (Value.str s) + 1 =
      5 + (if Atom.str "track" ∈ pyWrapList (r.financial_goals.getD (Value.list [])) then 3 else 0)
        + trackingAdjustment (Value.num 3)
    rw [h1]
    show _ + (0 : Int) + 1 = _ + 1
    omega
  · show clamp (5 + (if Atom.str "track" ∈ pyWrapList (r.financial_goals.getD (Value.list [])) then 3 else 0)
        + trackingAdjustment (Value.str s)) ≠
      clamp (5 + (if Atom.str "track" ∈ pyWrapList (r.financial_goals.getD (Value.list [])) then 3 else 0)
        + trackingAdjustment (Value.num 3))
    have h0 : trackingAdjustment (Value.str s) = (0 : Int) := rfl
    rw [h1, h0]
    by_cases ht : Atom.str "track" ∈ pyWrapList (r.financial_goals.getD (Value.list []))
    · rw [if_pos ht]
      decide
    · rw [if_neg ht]
      decide

end Finergize
